import Mathlib

/-!
Verification of the `pair` package (a PurpleAir sensor client) and its
`examples/query.go` polling driver, as a shallow embedding in Lean 4.

Modelling conventions:
  * Go `float64` is modelled as `ℚ` (exact arithmetic on the ideal values;
    the spec states all numeric laws in exact arithmetic).
  * Go `int` / `time.Duration` (int64) are modelled as `ℤ`.
  * A Go pointer that may be `nil` (`LastSample *Status`) is modelled as an
    `Option`; `none` is the nil pointer.
  * Methods are embedded in state-passing style: a method of `*Sensor`
    takes the receiver and returns its result paired with the receiver
    state after the call.  An accessor that would dereference a nil
    `LastSample` in Go panics at runtime; that panic outcome is modelled
    as the result `none`.
  * The `sync.Mutex` field only serialises the method bodies; in this
    sequential embedding each method body is already one atomic step, so
    the mutex has no separate representation.
  * The HTTP transport (`http.Get`) and the JSON decoder are external
    collaborators; `Refresh` takes them as function parameters.
-/

/-- Go `error` values, abstracted to their message. -/
abbrev GoError := String

/-- A well-typed JSON primitive value, as far as the wire schema needs:
integer-valued numbers (for Go `int` fields), general numbers (for Go
`float64` fields) and strings. -/
inductive JVal where
  | jint (n : ℤ)
  | jnum (q : ℚ)
  | jstr (s : String)
deriving DecidableEq

/-- Status is the structure returned by the PurpleAir sensors, via the
URL path `/json?live=true` (src/pair.go lines 14-80).  Field names and
order follow the Go struct; `string` becomes `String`, `int` becomes `ℤ`,
`float64` becomes `ℚ`. -/
structure Status where
  SensorId           : String
  DateTime           : String
  Geo                : String
  Mem                : ℤ
  MemFrag            : ℤ
  MemFB              : ℤ
  MemCS              : ℤ
  ID                 : ℤ
  Lat                : ℚ
  Lon                : ℚ
  Adc                : ℚ
  LoggingRate        : ℤ
  Place              : String
  Version            : String
  Uptime             : ℤ
  RSSI               : ℤ
  Period             : ℤ
  HttpSuccess        : ℤ
  HttpSends          : ℤ
  HardwareVersion    : String
  HardwareDiscovered : String
  CurrentTempF       : ℤ
  CurrentHumidity    : ℤ
  CurrentDewpointF   : ℤ
  Pressure           : ℚ
  P24AqicB           : String
  PM25AqiB           : ℤ
  PM10Cf1B           : ℚ
  PM03UmB            : ℚ
  PM05UmB            : ℚ
  P05UmB             : ℚ
  PM100Cf1B          : ℚ
  P10UmB             : ℚ
  PM10AtmB           : ℚ
  P25UmB             : ℚ
  PM25AtmB           : ℚ
  P50UmB             : ℚ
  PM100AtmB          : ℚ
  P100UmB            : ℚ
  P25Aqic            : String
  PM25Aqi            : ℤ
  PM10Cf1            : ℚ
  P03Um              : ℚ
  PM25Cf1            : ℚ
  P05Um              : ℚ
  PM100Cf1           : ℚ
  P10Um              : ℚ
  PM10Atm            : ℚ
  P25Um              : ℚ
  PM25Atm            : ℚ
  P50Um              : ℚ
  PM100Atm           : ℚ
  P100Um             : ℚ
  PaLatency          : ℤ
  Response           : ℤ
  ResponseDate       : ℤ
  Latency            : ℤ
  WlState            : String
  Status0            : ℤ
  Status1            : ℤ
  Status2            : ℤ
  Status3            : ℤ
  Status4            : ℤ
  Status6            : ℤ
  SSID               : String
deriving DecidableEq

/-- The Go zero value `Status{}`: every string empty, every number zero
(src/pair.go line 197, `status := &Status{}`). -/
def Status.zero : Status where
  SensorId := ""
  DateTime := ""
  Geo := ""
  Mem := 0
  MemFrag := 0
  MemFB := 0
  MemCS := 0
  ID := 0
  Lat := 0
  Lon := 0
  Adc := 0
  LoggingRate := 0
  Place := ""
  Version := ""
  Uptime := 0
  RSSI := 0
  Period := 0
  HttpSuccess := 0
  HttpSends := 0
  HardwareVersion := ""
  HardwareDiscovered := ""
  CurrentTempF := 0
  CurrentHumidity := 0
  CurrentDewpointF := 0
  Pressure := 0
  P24AqicB := ""
  PM25AqiB := 0
  PM10Cf1B := 0
  PM03UmB := 0
  PM05UmB := 0
  P05UmB := 0
  PM100Cf1B := 0
  P10UmB := 0
  PM10AtmB := 0
  P25UmB := 0
  PM25AtmB := 0
  P50UmB := 0
  PM100AtmB := 0
  P100UmB := 0
  P25Aqic := ""
  PM25Aqi := 0
  PM10Cf1 := 0
  P03Um := 0
  PM25Cf1 := 0
  P05Um := 0
  PM100Cf1 := 0
  P10Um := 0
  PM10Atm := 0
  P25Um := 0
  PM25Atm := 0
  P50Um := 0
  PM100Atm := 0
  P100Um := 0
  PaLatency := 0
  Response := 0
  ResponseDate := 0
  Latency := 0
  WlState := ""
  Status0 := 0
  Status1 := 0
  Status2 := 0
  Status3 := 0
  Status4 := 0
  Status6 := 0
  SSID := ""

/-- Sensor holds a cached summary of a PurpleAir sensor state
(src/pair.go lines 83-90).  `LastSample = none` is the nil pointer of the
Go `*Status` field; `TempPoly` is the polynomial best fit for temperature
conversion. -/
structure Sensor where
  Addr       : String
  LastSample : Option Status
  TempPoly   : List ℚ
deriving DecidableEq

/-- NewSensor registers a new sensor reference; it cannot fail and does
not contact the device (src/pair.go lines 94-98).  The omitted fields of
the Go composite literal take their zero values: nil `LastSample`, nil
(empty) `TempPoly`. -/
def NewSensor (addr : String) : Sensor where
  Addr := addr
  LastSample := none
  TempPoly := []

/-- TempAdjust sets the polynomial expansion parameters used to convert
raw temperature measurements (src/pair.go lines 111-115). -/
def Sensor.TempAdjust (s : Sensor) (coef : List ℚ) : Sensor :=
  { s with TempPoly := coef }

/-- expand a temperature measurement with the TempPoly coefficients
(src/pair.go lines 118-128).  The Go loop state `(t, x)` is threaded as a
pair through a left fold over the coefficients. -/
def actualTemp (coef : List ℚ) (raw : ℚ) : ℚ :=
  if coef.isEmpty then raw
  else (coef.foldl (fun (p : ℚ × ℚ) c => (p.1 + c * p.2, p.2 * raw)) (0, 1)).1

/-- CtoF is the Celsius to Fahrenheit conversion (src/pair.go 131-133). -/
def CtoF (c : ℚ) : ℚ := 9 * c / 5 + 32

/-- FtoC is the Fahrenheit to Celsius conversion (src/pair.go 136-138). -/
def FtoC (c : ℚ) : ℚ := (c - 32) * 5 / 9

/-- Temp returns the adjusted temperature value (src/pair.go 144-150).
`s.LastSample.CurrentTempF` on a nil `LastSample` is a nil-pointer panic
in Go; that outcome is the result `none`. -/
def Sensor.Temp (s : Sensor) : Option ℚ × Sensor :=
  match s.LastSample with
  | none => (none, s)
  | some st => (some (actualTemp s.TempPoly (st.CurrentTempF : ℚ)), s)

/-- DewPoint returns the current dew point temperature
(src/pair.go 153-159). -/
def Sensor.DewPoint (s : Sensor) : Option ℚ × Sensor :=
  match s.LastSample with
  | none => (none, s)
  | some st => (some (actualTemp s.TempPoly (st.CurrentDewpointF : ℚ)), s)

/-- Humidity returns the percent humidity seen by the sensor
(src/pair.go 162-166). -/
def Sensor.Humidity (s : Sensor) : Option ℚ × Sensor :=
  match s.LastSample with
  | none => (none, s)
  | some st => (some (st.CurrentHumidity : ℚ), s)

/-- Pressure returns the current pressure in hPa units
(src/pair.go 169-173). -/
def Sensor.Pressure (s : Sensor) : Option ℚ × Sensor :=
  match s.LastSample with
  | none => (none, s)
  | some st => (some st.Pressure, s)

/-- AQIA returns the AQI value for sensor A (src/pair.go 176-180). -/
def Sensor.AQIA (s : Sensor) : Option ℚ × Sensor :=
  match s.LastSample with
  | none => (none, s)
  | some st => (some (st.PM25Aqi : ℚ), s)

/-- AQIB returns the AQI value for sensor B (src/pair.go 183-187). -/
def Sensor.AQIB (s : Sensor) : Option ℚ × Sensor :=
  match s.LastSample with
  | none => (none, s)
  | some st => (some (st.PM25AqiB : ℚ), s)

/-- Refresh fetches and updates the cached Sensor state
(src/pair.go 190-205).  `httpGet` stands for `http.Get` and `decode` for
`json.NewDecoder(resp.Body).Decode` into a fresh `&Status{}`; `β` is the
opaque response-body type.  The result pairs the returned `error`
(`none` = Go `nil`) with the sensor state after the call: on either
failure the method returns before touching `LastSample`, on success it
installs the decoded status wholesale. -/
def Sensor.Refresh {β : Type} (s : Sensor) (httpGet : String → Except GoError β)
    (decode : β → Except GoError Status) : Option GoError × Sensor :=
  match httpGet ("http://" ++ s.Addr ++ "/json?live=true") with
  | .error e => (some e, s)
  | .ok body =>
    match decode body with
    | .error e => (some e, s)
    | .ok status => (none, { s with LastSample := some status })

/-- The JSON object keys of the six wire fields that the accessors
project out of the snapshot (spec section 6). -/
def projectedKeys : List String :=
  ["current_temp_f", "current_dewpoint_f", "current_humidity",
   "pressure", "pm2.5_aqi", "pm2.5_aqi_b"]

/-- One step of the Go `encoding/json` decode into a `Status`: a key/value
pair of the JSON object sets the struct field tagged with that key and
leaves every other field alone.  `encoding/json` is an external
collaborator (the Go standard library), modelled here for the six keys
the accessors project; the remaining keys of the wire schema are left
uninterpreted (no claim or accessor reads the fields they would set), as
is a value whose type does not match its field (a decode error in Go,
outside the well-typed bodies considered here). -/
def setStatusField (st : Status) (kv : String × JVal) : Status :=
  match kv with
  | ("current_temp_f", .jint n) => { st with CurrentTempF := n }
  | ("current_dewpoint_f", .jint n) => { st with CurrentDewpointF := n }
  | ("current_humidity", .jint n) => { st with CurrentHumidity := n }
  | ("pressure", .jnum q) => { st with Pressure := q }
  | ("pm2.5_aqi", .jint n) => { st with PM25Aqi := n }
  | ("pm2.5_aqi_b", .jint n) => { st with PM25AqiB := n }
  | _ => st

/-- The Go `encoding/json` decode of a well-formed JSON object into the
zero-initialized `&Status{}` of `Refresh` (src/pair.go 197-198): start
from the zero value and set each field whose key appears in the object;
a key absent from the object leaves its field at the zero value. -/
def goDecodeStatus (obj : List (String × JVal)) : Status :=
  obj.foldl setStatusField Status.zero

/-- One second, in the `time.Duration` unit (nanoseconds): the fixed
retry delay `1 * time.Second` and the initial backoff of
src/examples/query.go. -/
def second : ℤ := 1000000000

/-- The poller configuration of src/examples/query.go: the `--retry`,
`--backoff` and `--poll` flag values. -/
structure PollCfg where
  retryCfg : ℤ
  backoff  : Bool
  poll     : ℤ
deriving DecidableEq

/-- The mutable loop state of the poller: the `retries` counter and the
backoff duration `bo` (src/examples/query.go lines 42-43). -/
structure PollSt where
  retries : ℤ
  bo      : ℤ
deriving DecidableEq

/-- The outcome of one `s.Refresh()` call as the poller sees it: the
returned error was nil or non-nil. -/
inductive Outcome where
  | fail
  | ok
deriving DecidableEq

/-- The externally observable events of one poller loop iteration, in
program order: `time.Sleep` calls with their duration, `log` calls, and
the successful-reading log line. -/
inductive Ev where
  | retrySleep (d : ℤ)
  | backoffLog (d : ℤ)
  | backoffSleep (d : ℤ)
  | reading
  | pollSleep (d : ℤ)
  | fatalLog (attempts : ℤ)
deriving DecidableEq

/-- Whether an event is a `log` package call (a log line an operator
sees): `log.Printf("retrying with backoff (%v)", bo)` at line 59, the
reading `log.Printf` at line 71, and the `log.Fatalf` at line 52.  The
`time.Sleep(1 * time.Second)` of the retry branch (line 48) has no
accompanying log call. -/
def isLogEv : Ev → Bool
  | .backoffLog _ => true
  | .reading => true
  | .fatalLog _ => true
  | _ => false

/-- What the poller does after one loop iteration: keep looping with an
updated state, stop via `break` (one-shot success), or stop via
`log.Fatalf` (which records the `--retry` attempt count). -/
inductive PollRes where
  | running (st : PollSt)
  | done
  | failed (attempts : ℤ)
deriving DecidableEq

/-- One iteration of the poller loop of src/examples/query.go lines
44-78, given the outcome of the `s.Refresh()` call at its head: the
emitted events in program order, and what the loop does next.
  * failure, `retries > 0`: decrement, sleep one second, `continue`;
  * failure, retries exhausted, `--backoff=false`: `log.Fatalf` with the
    configured attempt count (terminal);
  * failure, retries exhausted, backoff enabled: double `bo` (from one
    second on first entry), log it, sleep it, `continue`;
  * success: log the reading; `break` if `--poll` is zero, else sleep
    the poll interval and reset `retries` and `bo` to their initial
    configured values. -/
def pollStep (cfg : PollCfg) (st : PollSt) : Outcome → List Ev × PollRes
  | .fail =>
    if 0 < st.retries then
      ([.retrySleep second], .running ⟨st.retries - 1, st.bo⟩)
    else if !cfg.backoff then
      ([.fatalLog cfg.retryCfg], .failed cfg.retryCfg)
    else
      let bo := if st.bo = 0 then second else st.bo * 2
      ([.backoffLog bo, .backoffSleep bo], .running ⟨st.retries, bo⟩)
  | .ok =>
    if cfg.poll = 0 then ([.reading], .done)
    else ([.reading, .pollSleep cfg.poll], .running ⟨cfg.retryCfg, 0⟩)

/-- Run the poller loop over a finite sequence of refresh outcomes,
starting from state `st`, accumulating the event trace; a terminal step
(`done`/`failed`) stops the run and any remaining outcomes are unused. -/
def pollRun (cfg : PollCfg) (st : PollSt) : List Outcome → List Ev × PollRes
  | [] => ([], .running st)
  | o :: os =>
    match pollStep cfg st o with
    | (evs, .running st1) =>
      let r := pollRun cfg st1 os
      (evs ++ r.1, r.2)
    | (evs, res) => (evs, res)

/-- The initial poller state: `retries := *retry`, `bo := 0`
(src/examples/query.go lines 42-43). -/
def pollInit (cfg : PollCfg) : PollSt := ⟨cfg.retryCfg, 0⟩

/-! ### Helper lemmas for the calibration polynomial -/

lemma sum_getD_cons (c : ℚ) (cs : List ℚ) (raw : ℚ) :
    ∑ i ∈ Finset.range (cs.length + 1), (c :: cs).getD i 0 * raw ^ i
      = c + raw * ∑ i ∈ Finset.range cs.length, cs.getD i 0 * raw ^ i := by
  rw [Finset.sum_range_succ']
  have h1 : ∀ i ∈ Finset.range cs.length,
      (c :: cs).getD (i + 1) 0 * raw ^ (i + 1) = raw * (cs.getD i 0 * raw ^ i) := by
    intro i _
    simp only [List.getD_cons_succ, pow_succ]
    ring
  rw [Finset.sum_congr rfl h1, ← Finset.mul_sum]
  simp only [List.getD_cons_zero, pow_zero, mul_one]
  ring

lemma actualTemp_foldl (coef : List ℚ) (raw t x : ℚ) :
    (coef.foldl (fun (p : ℚ × ℚ) c => (p.1 + c * p.2, p.2 * raw)) (t, x)).1
      = t + x * ∑ i ∈ Finset.range coef.length, coef.getD i 0 * raw ^ i := by
  induction coef generalizing t x with
  | nil => simp
  | cons c cs ih =>
    simp only [List.foldl_cons]
    rw [ih, List.length_cons, sum_getD_cons]
    ring

/-- Claim C2: for every nonempty coefficient sequence and every raw value,
`actualTemp` evaluates the polynomial `sum of coef[i] * raw^i`; for the
empty sequence it returns `raw` unchanged, and for a single coefficient
`[c0]` it returns `c0` for every raw value. -/
theorem actualTemp_polynomial (coef : List ℚ) (raw c0 : ℚ) (h : coef ≠ []) :
    actualTemp coef raw = ∑ i ∈ Finset.range coef.length, coef.getD i 0 * raw ^ i
    ∧ actualTemp [] raw = raw
    ∧ actualTemp [c0] raw = c0 := by
  refine ⟨?_, by simp [actualTemp], ?_⟩
  · cases coef with
    | nil => exact absurd rfl h
    | cons c cs =>
      have hne : actualTemp (c :: cs) raw
          = ((c :: cs).foldl (fun (p : ℚ × ℚ) d => (p.1 + d * p.2, p.2 * raw)) (0, 1)).1 := rfl
      rw [hne, actualTemp_foldl]
      ring
  · have hc : actualTemp [c0] raw
        = (([c0] : List ℚ).foldl (fun (p : ℚ × ℚ) d => (p.1 + d * p.2, p.2 * raw)) (0, 1)).1 := rfl
    rw [hc]
    simp

/-- Witness for C2 at coef = [2, 3], raw = 5, c0 = 7:
`actualTemp [2, 3] 5 = 2 + 3 * 5 = 17`. -/
theorem actualTemp_polynomial_witness :
    actualTemp [2, 3] 5
        = ∑ i ∈ Finset.range ([2, 3] : List ℚ).length, ([2, 3] : List ℚ).getD i 0 * 5 ^ i
    ∧ actualTemp [] 5 = 5
    ∧ actualTemp [(7 : ℚ)] 5 = 7 :=
  actualTemp_polynomial [2, 3] 5 7 (by simp)

/-! ### Refresh, accessors and frame conditions -/

/-- Claim C1: `Refresh` returns the underlying error and leaves the
cached snapshot (and the whole sensor) exactly as it was whenever the
HTTP fetch or the JSON decode fails; it returns success if and only if
both succeed, and then the cached snapshot is wholly replaced by the
newly decoded one. -/
theorem refresh_contract {β : Type} (s : Sensor) (httpGet : String → Except GoError β)
    (decode : β → Except GoError Status) :
    (∀ e, httpGet ("http://" ++ s.Addr ++ "/json?live=true") = .error e →
        s.Refresh httpGet decode = (some e, s))
    ∧ (∀ body e, httpGet ("http://" ++ s.Addr ++ "/json?live=true") = .ok body →
        decode body = .error e → s.Refresh httpGet decode = (some e, s))
    ∧ (∀ body st, httpGet ("http://" ++ s.Addr ++ "/json?live=true") = .ok body →
        decode body = .ok st →
        s.Refresh httpGet decode = (none, { s with LastSample := some st }))
    ∧ ((s.Refresh httpGet decode).1 = none ↔
        ∃ body st, httpGet ("http://" ++ s.Addr ++ "/json?live=true") = .ok body
          ∧ decode body = .ok st) := by
  refine ⟨?_, ?_, ?_, ?_, ?_⟩
  · intro e he
    simp [Sensor.Refresh, he]
  · intro body e hg hd
    simp [Sensor.Refresh, hg, hd]
  · intro body st hg hd
    simp [Sensor.Refresh, hg, hd]
  · intro h
    rcases hg : httpGet ("http://" ++ s.Addr ++ "/json?live=true") with e | body
    · simp [Sensor.Refresh, hg] at h
    · rcases hd : decode body with e | st
      · simp [Sensor.Refresh, hg, hd] at h
      · exact ⟨body, st, rfl, hd⟩
  · rintro ⟨body, st, hg, hd⟩
    simp [Sensor.Refresh, hg, hd]

/-- Witness for C1: a sensor whose fetch and decode both succeed installs
the decoded snapshot; a failing fetch or a failing decode returns that
error with the sensor untouched. -/
theorem refresh_contract_witness :
    (NewSensor "a").Refresh (fun _ => Except.ok ()) (fun _ => Except.ok Status.zero)
      = (none, { NewSensor "a" with LastSample := some Status.zero })
    ∧ (NewSensor "a").Refresh (fun _ => Except.error "connection refused")
        (fun _ : Unit => Except.ok Status.zero)
      = (some "connection refused", NewSensor "a")
    ∧ (NewSensor "a").Refresh (fun _ => Except.ok ()) (fun _ => Except.error "invalid JSON")
      = (some "invalid JSON", NewSensor "a") :=
  ⟨(refresh_contract (NewSensor "a") (fun _ => Except.ok ())
      (fun _ => Except.ok Status.zero)).2.2.1 () Status.zero rfl rfl,
   (refresh_contract (NewSensor "a") (fun _ => Except.error "connection refused")
      (fun _ : Unit => Except.ok Status.zero)).1 "connection refused" rfl,
   (refresh_contract (NewSensor "a") (fun _ => Except.ok ())
      (fun _ => Except.error "invalid JSON")).2.1 () "invalid JSON" rfl rfl⟩

/-- Claim C10: every accessor leaves the whole sensor state unchanged;
`Refresh` never changes `Addr` or `TempPoly`; `TempAdjust` changes only
`TempPoly`, never `Addr` or `LastSample`. -/
theorem frame_conditions {β : Type} (s : Sensor) (cs : List ℚ)
    (httpGet : String → Except GoError β) (decode : β → Except GoError Status) :
    s.Temp.2 = s ∧ s.DewPoint.2 = s ∧ s.Humidity.2 = s ∧ s.Pressure.2 = s
    ∧ s.AQIA.2 = s ∧ s.AQIB.2 = s
    ∧ (s.Refresh httpGet decode).2.Addr = s.Addr
    ∧ (s.Refresh httpGet decode).2.TempPoly = s.TempPoly
    ∧ (s.TempAdjust cs).Addr = s.Addr
    ∧ (s.TempAdjust cs).LastSample = s.LastSample := by
  have hR : (s.Refresh httpGet decode).2.Addr = s.Addr
      ∧ (s.Refresh httpGet decode).2.TempPoly = s.TempPoly := by
    rcases hg : httpGet ("http://" ++ s.Addr ++ "/json?live=true") with e | body
    · simp [Sensor.Refresh, hg]
    · rcases hd : decode body with e | st <;> simp [Sensor.Refresh, hg, hd]
  refine ⟨?_, ?_, ?_, ?_, ?_, ?_, hR.1, hR.2, rfl, rfl⟩ <;>
    cases h : s.LastSample <;>
      simp [Sensor.Temp, Sensor.DewPoint, Sensor.Humidity, Sensor.Pressure,
        Sensor.AQIA, Sensor.AQIB, h]

/-- Claim C6: setting the coefficients and then reading the temperature,
with no intervening refresh, applies the new coefficients to the raw
value already cached in the snapshot. -/
theorem tempadjust_applies_to_cached (s : Sensor) (cs : List ℚ) (st : Status)
    (h : s.LastSample = some st) :
    ((s.TempAdjust cs).Temp).1 = some (actualTemp cs (st.CurrentTempF : ℚ)) := by
  simp [Sensor.TempAdjust, Sensor.Temp, h]

/-- A concrete decoded snapshot with nonzero readings, for witnesses. -/
def exampleStatus : Status :=
  { Status.zero with
    CurrentTempF := 71
    CurrentDewpointF := 60
    CurrentHumidity := 40
    Pressure := 1013
    PM25Aqi := 12
    PM25AqiB := 14 }

/-- A sensor already holding `exampleStatus` as its cached snapshot. -/
def exampleSensor : Sensor :=
  { Addr := "192.168.4.51", LastSample := some exampleStatus, TempPoly := [] }

/-- Witness for C6: after `TempAdjust [-89037/10000, 10441/10000]` the
cached raw 71F is recalibrated without a new refresh. -/
theorem tempadjust_applies_to_cached_witness :
    ((exampleSensor.TempAdjust [-89037/10000, 10441/10000]).Temp).1
      = some (actualTemp [-89037/10000, 10441/10000] (exampleStatus.CurrentTempF : ℚ)) :=
  tempadjust_applies_to_cached exampleSensor [-89037/10000, 10441/10000] exampleStatus rfl

/-- Counterexample to claim C5: on a freshly created sensor, `Temp` does
not return `applyCalibration(coefficients, 0)` — it dereferences the nil
`LastSample` pointer, a Go runtime panic (result `none`), while the
claimed default-read behaviour would produce `some 0` here. -/
theorem accessor_before_refresh_cex :
    ((NewSensor "192.168.4.51").Temp).1 = none
    ∧ ((NewSensor "192.168.4.51").Temp).1
        ≠ some (actualTemp (NewSensor "192.168.4.51").TempPoly 0) :=
  ⟨rfl, by simp [NewSensor, Sensor.Temp]⟩

/-- Claim C5 (amended): on every sensor on which no Refresh has yet
succeeded (nil `LastSample`, as `NewSensor` leaves it), every accessor
dereferences the absent snapshot and fails with a nil-pointer panic
(modelled as `none`); none of them returns default/zero field values. -/
theorem accessor_before_refresh_panics (s : Sensor) (h : s.LastSample = none) :
    s.Temp.1 = none ∧ s.DewPoint.1 = none ∧ s.Humidity.1 = none
    ∧ s.Pressure.1 = none ∧ s.AQIA.1 = none ∧ s.AQIB.1 = none := by
  simp [Sensor.Temp, Sensor.DewPoint, Sensor.Humidity, Sensor.Pressure,
    Sensor.AQIA, Sensor.AQIB, h]

/-- Witness for the amended C5 at a freshly registered sensor. -/
theorem accessor_before_refresh_panics_witness :
    (NewSensor "10.0.0.7").Temp.1 = none ∧ (NewSensor "10.0.0.7").DewPoint.1 = none
    ∧ (NewSensor "10.0.0.7").Humidity.1 = none ∧ (NewSensor "10.0.0.7").Pressure.1 = none
    ∧ (NewSensor "10.0.0.7").AQIA.1 = none ∧ (NewSensor "10.0.0.7").AQIB.1 = none :=
  accessor_before_refresh_panics (NewSensor "10.0.0.7") rfl

/-! ### Decoding a JSON object that carries none of the projected fields -/

lemma setStatusField_not_projected (st : Status) (kv : String × JVal)
    (h : kv.1 ∉ projectedKeys) : setStatusField st kv = st := by
  rcases kv with ⟨k, v⟩
  simp only [projectedKeys, List.mem_cons, List.not_mem_nil, or_false, not_or] at h
  unfold setStatusField
  split <;> simp_all

lemma foldl_setStatusField_no_projected (obj : List (String × JVal)) :
    ∀ st : Status, (∀ kv ∈ obj, kv.1 ∉ projectedKeys) → obj.foldl setStatusField st = st := by
  induction obj with
  | nil => intro st _; rfl
  | cons kv rest ih =>
    intro st h
    rw [List.foldl_cons, setStatusField_not_projected st kv (h kv (by simp))]
    exact ih st fun kv2 hm => h kv2 (by simp [hm])

/-- Claim C9: when the fetch succeeds and the body is a well-formed JSON
object containing none of the six projected fields, `Refresh` still
returns success and replaces the cached snapshot — the freshly decoded
snapshot carries the Go zero values for all six fields, overwriting any
previously cached real readings. -/
theorem refresh_fieldless_object (s : Sensor) (obj : List (String × JVal))
    (hobj : ∀ kv ∈ obj, kv.1 ∉ projectedKeys) :
    s.Refresh (fun _ => Except.ok obj) (fun body => Except.ok (goDecodeStatus body))
        = (none, { s with LastSample := some (goDecodeStatus obj) })
    ∧ (goDecodeStatus obj).CurrentTempF = 0
    ∧ (goDecodeStatus obj).CurrentDewpointF = 0
    ∧ (goDecodeStatus obj).CurrentHumidity = 0
    ∧ (goDecodeStatus obj).Pressure = 0
    ∧ (goDecodeStatus obj).PM25Aqi = 0
    ∧ (goDecodeStatus obj).PM25AqiB = 0 := by
  have hz : goDecodeStatus obj = Status.zero :=
    foldl_setStatusField_no_projected obj Status.zero hobj
  refine ⟨rfl, ?_, ?_, ?_, ?_, ?_, ?_⟩ <;> rw [hz] <;> rfl

/-- Witness for C9: a sensor holding real readings refreshed against the
body `{"uptime": 12}` succeeds and caches an all-zero snapshot. -/
theorem refresh_fieldless_object_witness :
    exampleSensor.Refresh (fun _ => Except.ok [("uptime", JVal.jint 12)])
        (fun body => Except.ok (goDecodeStatus body))
      = (none, { exampleSensor with
                  LastSample := some (goDecodeStatus [("uptime", JVal.jint 12)]) })
    ∧ (goDecodeStatus [("uptime", JVal.jint 12)]).CurrentTempF = 0
    ∧ (goDecodeStatus [("uptime", JVal.jint 12)]).CurrentDewpointF = 0
    ∧ (goDecodeStatus [("uptime", JVal.jint 12)]).CurrentHumidity = 0
    ∧ (goDecodeStatus [("uptime", JVal.jint 12)]).Pressure = 0
    ∧ (goDecodeStatus [("uptime", JVal.jint 12)]).PM25Aqi = 0
    ∧ (goDecodeStatus [("uptime", JVal.jint 12)]).PM25AqiB = 0 :=
  refresh_fieldless_object exampleSensor [("uptime", JVal.jint 12)]
    (by simp [projectedKeys])

/-! ### The poller retry/backoff state machine -/

lemma pollStep_retry (cfg : PollCfg) (st : PollSt) (hpos : 0 < st.retries) :
    pollStep cfg st .fail
      = ([.retrySleep second], .running ⟨st.retries - 1, st.bo⟩) := by
  simp only [pollStep]
  rw [if_pos hpos]

lemma pollStep_backoff_first (cfg : PollCfg) (hb : cfg.backoff = true)
    (st : PollSt) (hr : st.retries ≤ 0) (hbo : st.bo = 0) :
    pollStep cfg st .fail
      = ([.backoffLog second, .backoffSleep second], .running ⟨st.retries, second⟩) := by
  simp only [pollStep]
  rw [if_neg (by omega)]
  simp [hb, hbo]

lemma pollStep_backoff_double (cfg : PollCfg) (hb : cfg.backoff = true)
    (st : PollSt) (hr : st.retries ≤ 0) (hbo : st.bo ≠ 0) :
    pollStep cfg st .fail
      = ([.backoffLog (st.bo * 2), .backoffSleep (st.bo * 2)],
         .running ⟨st.retries, st.bo * 2⟩) := by
  simp only [pollStep]
  rw [if_neg (by omega)]
  simp [hb, hbo]

lemma pollRun_backoff_state (cfg : PollCfg) (hb : cfg.backoff = true) (r : ℤ)
    (hr : r ≤ 0) :
    ∀ (k j : ℕ), (pollRun cfg ⟨r, 2 ^ j * second⟩ (List.replicate k .fail)).2
      = .running ⟨r, 2 ^ (j + k) * second⟩ := by
  intro k
  induction k with
  | zero =>
    intro j
    simp [pollRun]
  | succ k ih =>
    intro j
    have hbo : (2 ^ j * second : ℤ) ≠ 0 := by
      have h1 : (0:ℤ) < 2 ^ j := pow_pos (by norm_num) j
      have h2 : (0:ℤ) < second := by norm_num [second]
      exact ne_of_gt (mul_pos h1 h2)
    have hstep := pollStep_backoff_double cfg hb ⟨r, 2 ^ j * second⟩ hr hbo
    rw [List.replicate_succ]
    simp only [pollRun, hstep]
    have h2 : (2 ^ j * second * 2 : ℤ) = 2 ^ (j + 1) * second := by ring
    rw [h2, ih (j + 1)]
    have h3 : j + 1 + k = j + (k + 1) := by omega
    rw [h3]

/-- Claim C4: with `--retry=3` and `--backoff=false`, four consecutive
refresh failures drive the poller to the terminal `Failed` state (the
`log.Fatalf` reporting the configured attempt count), after exactly three
fixed one-second retry sleeps and no backoff events. -/
theorem poller_fatal_after_retries (p b : ℤ) :
    pollRun ⟨3, false, p⟩ ⟨3, b⟩ (List.replicate 4 .fail)
      = ([.retrySleep second, .retrySleep second, .retrySleep second, .fatalLog 3],
         .failed 3) := rfl

/-- Claim C3: with backoff enabled and the retry budget exhausted, the
delay before the next refresh is one second on the first backoff-phase
failure and doubles on each subsequent consecutive failure, the poller
keeps running (no cap, no giving up, `bo = 2^k` seconds after `k + 1`
consecutive backoff failures); a failure step never increases the retry
counter nor shrinks the backoff duration, and only a successful refresh
(in polling mode) resets both to their configured initial values. -/
theorem poller_backoff_doubles (cfg : PollCfg) (hb : cfg.backoff = true)
    (st : PollSt) (hr : st.retries ≤ 0) (r : ℤ) (hr2 : r ≤ 0) (k : ℕ) :
    (st.bo = 0 → pollStep cfg st .fail
        = ([.backoffLog second, .backoffSleep second], .running ⟨st.retries, second⟩))
    ∧ (st.bo ≠ 0 → pollStep cfg st .fail
        = ([.backoffLog (st.bo * 2), .backoffSleep (st.bo * 2)],
           .running ⟨st.retries, st.bo * 2⟩))
    ∧ (pollRun cfg ⟨r, 0⟩ (List.replicate (k + 1) .fail)).2
        = .running ⟨r, 2 ^ k * second⟩
    ∧ (∀ st1 : PollSt, 0 ≤ st1.bo → ∀ evs st2,
        pollStep cfg st1 .fail = (evs, .running st2) →
          st2.retries ≤ st1.retries ∧ st1.bo ≤ st2.bo)
    ∧ (cfg.poll ≠ 0 → ∀ st1 : PollSt, pollStep cfg st1 .ok
        = ([.reading, .pollSleep cfg.poll], .running (pollInit cfg))) := by
  refine ⟨pollStep_backoff_first cfg hb st hr,
          pollStep_backoff_double cfg hb st hr, ?_, ?_, ?_⟩
  · rw [List.replicate_succ]
    simp only [pollRun, pollStep_backoff_first cfg hb ⟨r, 0⟩ hr2 rfl]
    have hsec : (⟨r, second⟩ : PollSt) = ⟨r, 2 ^ 0 * second⟩ := by norm_num
    rw [hsec, pollRun_backoff_state cfg hb r hr2 k 0]
    norm_num
  · intro st1 h0 evs st2 hstep
    rcases lt_or_le 0 st1.retries with hpos | hneg
    · rw [pollStep_retry cfg st1 hpos] at hstep
      obtain ⟨-, h2⟩ := Prod.mk.injEq .. ▸ hstep
      cases h2
      constructor <;> simp
    · by_cases hbo : st1.bo = 0
      · rw [pollStep_backoff_first cfg hb st1 hneg hbo] at hstep
        obtain ⟨-, h2⟩ := Prod.mk.injEq .. ▸ hstep
        cases h2
        refine ⟨le_refl _, ?_⟩
        rw [hbo]
        norm_num [second]
      · rw [pollStep_backoff_double cfg hb st1 hneg hbo] at hstep
        obtain ⟨-, h2⟩ := Prod.mk.injEq .. ▸ hstep
        cases h2
        refine ⟨le_refl _, ?_⟩
        simp only [PollSt.bo]
        omega
  · intro hp st1
    simp only [pollStep]
    rw [if_neg hp]
    rfl

/-- Witness for C3: with `retry` exhausted and backoff on, three straight
failures leave the poller running with an 8-second backoff pending
(1s, 2s, 4s slept). -/
theorem poller_backoff_doubles_witness :
    (pollRun ⟨2, true, 7⟩ ⟨0, 0⟩ (List.replicate 3 .fail)).2
      = .running ⟨0, 2 ^ 2 * second⟩ :=
  (poller_backoff_doubles ⟨2, true, 7⟩ rfl ⟨0, 0⟩ (le_refl 0) 0 (le_refl 0) 2).2.2.1

/-- Counterexample to claim C7: a poller run whose single failure enters
the `Retrying` state sleeps the fixed retry delay while its trace
contains no log event at all — the retry transition is unlogged
(src/examples/query.go lines 46-49 sleep without any `log` call). -/
theorem retry_transition_unlogged_cex :
    pollRun ⟨3, true, 0⟩ ⟨3, 0⟩ [.fail] = ([.retrySleep second], .running ⟨2, 0⟩)
    ∧ (pollRun ⟨3, true, 0⟩ ⟨3, 0⟩ [.fail]).1.any isLogEv = false :=
  ⟨rfl, rfl⟩

/-- Claim C7 (amended): in every execution, every transition into
`Backoff` (a transition that exists only with backoff enabled) logs the
chosen backoff delay before sleeping it, while a transition into
`Retrying` — taken before the backoff flag is ever consulted, so under
any configuration — sleeps the fixed one-second delay without emitting
any log line. -/
theorem backoff_logged_retry_unlogged (cfg : PollCfg) (st : PollSt) :
    (cfg.backoff = true → st.retries ≤ 0 → st.bo = 0 →
      pollStep cfg st .fail
        = ([.backoffLog second, .backoffSleep second], .running ⟨st.retries, second⟩))
    ∧ (cfg.backoff = true → st.retries ≤ 0 → st.bo ≠ 0 →
      pollStep cfg st .fail
        = ([.backoffLog (st.bo * 2), .backoffSleep (st.bo * 2)],
           .running ⟨st.retries, st.bo * 2⟩))
    ∧ (0 < st.retries →
      pollStep cfg st .fail = ([.retrySleep second], .running ⟨st.retries - 1, st.bo⟩)
      ∧ (pollStep cfg st .fail).1.any isLogEv = false) := by
  refine ⟨fun hb hr => pollStep_backoff_first cfg hb st hr,
          fun hb hr => pollStep_backoff_double cfg hb st hr, ?_⟩
  intro hpos
  refine ⟨pollStep_retry cfg st hpos, ?_⟩
  rw [pollStep_retry cfg st hpos]
  rfl

/-- Witness for the amended C7: with backoff disabled and one retry
left, the step sleeps one second and logs nothing; with backoff enabled
and retries exhausted, the step logs the one-second backoff delay before
sleeping it. -/
theorem backoff_logged_retry_unlogged_witness :
    (pollStep ⟨3, false, 0⟩ ⟨1, 0⟩ .fail = ([.retrySleep second], .running ⟨0, 0⟩)
      ∧ (pollStep ⟨3, false, 0⟩ ⟨1, 0⟩ .fail).1.any isLogEv = false)
    ∧ pollStep ⟨3, true, 0⟩ ⟨0, 0⟩ .fail
        = ([.backoffLog second, .backoffSleep second], .running ⟨0, second⟩) :=
  ⟨(backoff_logged_retry_unlogged ⟨3, false, 0⟩ ⟨1, 0⟩).2.2 (by norm_num),
   (backoff_logged_retry_unlogged ⟨3, true, 0⟩ ⟨0, 0⟩).1 rfl (le_refl 0) rfl⟩
